import Mathlib

/-
Shallow embedding of the playwright batch downloader's link-resolution
heuristic (src/examples/batch_runner.py) and of the tolerant JSON
extraction in the validator (src/examples/document_validator.py).
Strings are modelled as lists of characters; Python string operations
(`in`, `find`, `rfind`, slicing, `strip`, `lower`) are given explicit
definitions with Python semantics.
-/

namespace PBD

/-- Tests whether the first list is an initial segment of the second. -/
def isStartOf : List Char → List Char → Bool
  | [], _ => true
  | _ :: _, [] => false
  | a :: s, b :: t => a == b && isStartOf s t

/-- Python `sub in hay`: substring containment. -/
def occursIn (sub : List Char) : List Char → Bool
  | [] => sub.isEmpty
  | c :: t => isStartOf sub (c :: t) || occursIn sub t

/-- Python `hay.find(sub)` relative to a running index: the index of the
first occurrence of `sub`, or `none`. -/
def findFrom (sub : List Char) : List Char → Nat → Option Nat
  | [], i => if sub.isEmpty then some i else none
  | c :: t, i => if isStartOf sub (c :: t) then some i else findFrom sub t (i + 1)

/-- Python `str.lower`, restricted to the per-character lowering Lean
provides; the markers and link texts in play are ASCII or Chinese, on
which this agrees with Python. -/
def lowerL (s : List Char) : List Char := s.map Char.toLower

/-- Case-insensitive substring test, the text-matching semantics of the
browser library's `:text()` and `:has-text()` selectors. -/
def ciContains (hay sub : List Char) : Bool := occursIn (lowerL sub) (lowerL hay)

/-- Index of the last occurrence of a character, Python `hay.rfind(c)`
without the -1 encoding. -/
def lastIdxOf (c : Char) : List Char → Option Nat
  | [] => none
  | a :: t =>
    match lastIdxOf c t with
    | some j => some (j + 1)
    | none => if a == c then some 0 else none

/-- Whitespace for `str.strip`. -/
def isWS (c : Char) : Bool := c == ' ' || c == '\t' || c == '\n' || c == '\r'

/-- Python `str.strip()`. -/
def pyStrip (s : List Char) : List Char :=
  ((s.dropWhile isWS).reverse.dropWhile isWS).reverse

/-- Splits a class attribute into whitespace-separated tokens
(accumulator holds the current token reversed). -/
def tokensAux : List Char → List Char → List (List Char)
  | [], cur => if cur.isEmpty then [] else [cur.reverse]
  | c :: t, cur =>
    if isWS c then
      if cur.isEmpty then tokensAux t [] else cur.reverse :: tokensAux t []
    else tokensAux t (c :: cur)

/-- Whitespace-separated class tokens of a class attribute value. -/
def classTokens (s : List Char) : List (List Char) := tokensAux s []

/-- CSS class selector `.tok` on an element with the given (optional)
class attribute: the attribute's token list contains the token. -/
def hasClassTok (cls : Option (List Char)) (tok : List Char) : Bool :=
  match cls with
  | none => false
  | some c => (classTokens c).contains tok

/-- Python truthiness of `element.get_attribute(...)`: present and
non-empty. -/
def truthyStr : Option (List Char) → Bool
  | none => false
  | some s => !s.isEmpty

/-- An anchor element as the heuristic observes it: its text and the
attributes read at batch_runner.py lines 107-109, plus the dynamic
visible/enabled states the spec's data model lists for candidate links. -/
structure Anchor where
  text : List Char
  href : Option (List Char) := none
  onclick : Option (List Char) := none
  className : Option (List Char) := none
  visible : Bool := true
  enabled : Bool := true
deriving DecidableEq

/-- A table row: its text content, visibility, and the anchors inside it
in document order. -/
structure TableRow where
  text : List Char
  visible : Bool := true
  anchors : List Anchor := []
deriving DecidableEq

def kbbgMarker : List Char := ("kbbg").toList

def downloadMarker : List Char := ("download").toList

/-- The browser selector `a:text(linkText)` applied to one anchor. -/
def anchorMatches (a : Anchor) (linkText : List Char) : Bool :=
  ciContains a.text linkText

/-- The browser selector `tr:has-text(rowText)` applied to one row. -/
def rowMatchesText (r : TableRow) (rowText : List Char) : Bool :=
  ciContains r.text rowText

/-- The anchors of a row matching the link text, in document order:
`row.locator("a:text(element_name)")` at batch_runner.py lines 103, 149. -/
def matchingAnchors (r : TableRow) (linkText : List Char) : List Anchor :=
  r.anchors.filter (fun a => anchorMatches a linkText)

/-- The attribute test of batch_runner.py line 112 on the inspected
anchor: `href or onclick or (class_name and ("kbbg" in class_name or
"download" in class_name.lower()))`.  Truthiness makes empty attribute
strings fail; the kbbg containment is case-sensitive, the download
containment case-insensitive. -/
def strictSignal (a : Anchor) : Bool :=
  truthyStr a.href || truthyStr a.onclick ||
    (match a.className with
     | none => false
     | some c => !c.isEmpty && (occursIn kbbgMarker c || occursIn downloadMarker (lowerL c)))

/-- The strict-pass acceptance of a row, batch_runner.py lines 101-116:
the row has at least one matching anchor and the FIRST matching anchor
(`links.first`) passes the attribute test. -/
def strictRowOK (r : TableRow) (linkText : List Char) : Bool :=
  match matchingAnchors r linkText with
  | [] => false
  | a :: _ => strictSignal a

/-- `page.locator("tr:has-text(material_name)")` at line 91: rows whose
text contains the material name, in document order. -/
def candidateRows (rows : List TableRow) (rowText : List Char) : List TableRow :=
  rows.filter (fun r => rowMatchesText r rowText)

/-- Row selection, batch_runner.py lines 96-130: a strict pass taking
the first row passing `strictRowOK`, then a fallback pass taking the
first row that merely has a matching anchor.  The boolean is `true` when
the row came from the fallback (the lower-confidence outcome the code
logs at line 129). -/
def selectRow (cands : List TableRow) (linkText : List Char) : Option (TableRow × Bool) :=
  match cands.find? (fun r => strictRowOK r linkText) with
  | some r => some (r, false)
  | none =>
    match cands.find? (fun r => !(matchingAnchors r linkText).isEmpty) with
    | some r => some (r, true)
    | none => none

/-- Outcome of the anchor-choice step: the `download_link` locator of
batch_runner.py lines 149-164 either does not exist (the in-row failure
return of lines 152-153), resolves to a single element, or — when two or
more kbbg-marked anchors match — is a multi-element locator on which the
subsequent single-element operations (the visibility assertion at line
167 and the attribute reads at line 173) raise a strict-mode
violation. -/
inductive PickResult where
  | noLink
  | picked (a : Anchor)
  | strictModeViolation
deriving DecidableEq

/-- Anchor choice within the accepted row, batch_runner.py lines 149-164:
with a single matching anchor, `download_link` is that anchor; with
several, the code takes the `a.kbbg:text(...)` locator when it is
non-empty and `target_links.first` otherwise.  A preferred locator with
exactly one element is that marked anchor; with two or more marked
anchors `download_link` stays multi-element and the single-element
operations that follow raise a strict-mode violation. -/
def pickAnchor (r : TableRow) (linkText : List Char) : PickResult :=
  match matchingAnchors r linkText with
  | [] => .noLink
  | [a] => .picked a
  | a :: b :: rest =>
    match (a :: b :: rest).filter (fun x => hasClassTok x.className kbbgMarker) with
    | [] => .picked a
    | [p] => .picked p
    | _ :: _ :: _ => .strictModeViolation

/-- End-to-end static resolution: candidate rows, row selection, anchor
choice.  The boolean marks a fallback (lower-confidence) resolution;
both failure modes of the anchor step (no anchor in the row, a
strict-mode violation on a multi-element locator) resolve no anchor. -/
def resolveLink (rows : List TableRow) (rowText linkText : List Char) :
    Option (Anchor × Bool) :=
  match selectRow (candidateRows rows rowText) linkText with
  | none => none
  | some (r, fb) =>
    match pickAnchor r linkText with
    | .noLink => none
    | .strictModeViolation => none
    | .picked a => some (a, fb)

/-- The distinct return sites of `test_single_download_link`
(batch_runner.py lines 71, 136, 143, 153, 232, 238, 242).  Lines 136
(row/link not located) and 242 (the per-case catch-all, reached for any
exception escaping the inner blocks, including the anchor visibility
assertion at line 167) are single constructors because the code produces
one message at each site. -/
inductive Outcome where
  | navFailed
  | noValidRow
  | rowNotVisible
  | linkMissingInRow
  | downloadTimeout
  | unexpectedError
  | success (fileType : List Char)
deriving DecidableEq

/-- Index of the split point of `os.path.splitext`: the last dot, valid
only if some earlier character of the name is not a dot. -/
def extIdx (s : List Char) : Option Nat :=
  match lastIdxOf '.' s with
  | none => none
  | some j => if (s.take j).any (fun c => c != '.') then some j else none

/-- File-type computation of batch_runner.py lines 228-229: extension of
the suggested filename, lowered, without its leading dot. -/
def fileTypeOf (filename : List Char) : List Char :=
  match extIdx filename with
  | none => []
  | some j => lowerL (filename.drop (j + 1))

/-- The observable page behaviour one test case runs against: the
rendered rows, whether navigation returned an ok response, whether a
download event fires within the wait (covering both the same-page and
the new-window branch, which share the failure message at line 238), and
the download's suggested filename. -/
structure PageEnv where
  rows : List TableRow := []
  navOk : Bool := true
  downloadOk : Bool := true
  suggestedFilename : List Char := []
deriving DecidableEq

/-- The per-test-case operation `test_single_download_link`, modelled as
a total function: every failure path of the source returns a tuple, so
the embedding returns an `Outcome` for every input.  Neither the
visibility assertion on the resolved anchor (line 167) nor the
strict-mode violation a multi-element `download_link` raises there is
wrapped in its own handler; both reach the outer catch-all and are
reported as the generic unexpected-error message. -/
def testSingle (env : PageEnv) (materialName elementName : List Char) : Outcome :=
  if !env.navOk then .navFailed
  else
    match selectRow (candidateRows env.rows materialName) elementName with
    | none => .noValidRow
    | some (r, _) =>
      if !r.visible then .rowNotVisible
      else
        match pickAnchor r elementName with
        | .noLink => .linkMissingInRow
        | .strictModeViolation => .unexpectedError
        | .picked a =>
          if !a.visible then .unexpectedError
          else if env.downloadOk then .success (fileTypeOf env.suggestedFilename)
          else .downloadTimeout

/-- One input row of the batch dataset together with the page behaviour
its url leads to. -/
structure BatchCase where
  env : PageEnv
  materialName : List Char
  elementName : List Char
deriving DecidableEq

def isSuccess : Outcome → Bool
  | .success _ => true
  | _ => false

def outcomeFileType : Outcome → List Char
  | .success ft => ft
  | _ => []

/-- What `run_batch_tests` writes back for one dataset row: the
success/failure status, the outcome it stringifies into the result
column, and the file-format column. -/
structure ResultRecord where
  succeeded : Bool
  outcome : Outcome
  fileType : List Char
deriving DecidableEq

/-- The record the driver stores for a case (batch_runner.py
lines 310-318). -/
def recordOf (tc : BatchCase) : ResultRecord :=
  let o := testSingle tc.env tc.materialName tc.elementName
  ⟨isSuccess o, o, outcomeFileType o⟩

/-- The driver loop of batch_runner.py lines 290-338: run the case,
record the result, bump the success counter, continue with the rest. -/
def runBatchAux : List BatchCase → Nat → List ResultRecord × Nat
  | [], n => ([], n)
  | tc :: rest, n =>
    let o := testSingle tc.env tc.materialName tc.elementName
    let n' := if isSuccess o then n + 1 else n
    let p := runBatchAux rest n'
    (⟨isSuccess o, o, outcomeFileType o⟩ :: p.1, p.2)

/-- The records produced by one batch run. -/
def runBatch (tcs : List BatchCase) : List ResultRecord := (runBatchAux tcs 0).1

/-- The driver's success counter at the end of the run. -/
def successCount (tcs : List BatchCase) : Nat := (runBatchAux tcs 0).2

/-- The input dataset after a successful read: its column names and its
rows, each with the page its url renders. -/
structure Dataset where
  columns : List (List Char)
  cases : List BatchCase
deriving DecidableEq

/-- The state of the input file: whether the path exists, and the
dataset `pd.read_excel` yields, `none` when the read raises. -/
structure BatchInput where
  fileExists : Bool
  dataset : Option Dataset
deriving DecidableEq

def requiredColumns : List (List Char) :=
  [("url").toList, ("材料名称").toList, ("元素名称").toList]

/-- The missing-column check of batch_runner.py lines 268-269. -/
def missingColumns (ds : Dataset) : List (List Char) :=
  requiredColumns.filter (fun c => !(ds.columns.contains c))

/-- How a whole run ends: the three early returns of `main`
(line 381-383) and `run_batch_tests` (lines 263-265, 270-272), the
unhandled ZeroDivisionError the success-rate print at line 346 raises
when the dataset has zero rows (the loop ran zero times, the browser had
been launched at line 283, and no results file is written), or a
completed run with its records.  Only `crashedZeroDiv` and `finished`
are reached after the browser launch: the three aborts return before
line 282. -/
inductive RunResult where
  | abortedMissingFile
  | abortedReadError
  | abortedMissingCols
  | crashedZeroDiv
  | finished (records : List ResultRecord)
deriving DecidableEq

/-- The run entry point: existence check in `main`, then the read and
column checks at the top of `run_batch_tests`, then the driver loop;
with zero dataset rows the summary division at line 346 raises before
the results are saved. -/
def mainRun (inp : BatchInput) : RunResult :=
  if !inp.fileExists then .abortedMissingFile
  else
    match inp.dataset with
    | none => .abortedReadError
    | some ds =>
      if !(missingColumns ds).isEmpty then .abortedMissingCols
      else
        match ds.cases with
        | [] => .crashedZeroDiv
        | _ :: _ => .finished (runBatch ds.cases)

/-- A run counts as aborted when it never writes the results file. -/
def isAborted : RunResult → Bool
  | .finished _ => false
  | _ => true

/-- Whether the run reached the browser launch at line 283: the three
early returns do not, the driver loop and the line-346 crash do. -/
def browserLaunched : RunResult → Bool
  | .abortedMissingFile => false
  | .abortedReadError => false
  | .abortedMissingCols => false
  | .crashedZeroDiv => true
  | .finished _ => true

/-
Validator model: the tolerant JSON extraction of
`DocumentValidator._parse_validation_response`
(document_validator.py lines 582-619).
-/

def fenceJsonL : List Char := ("```json").toList

def fenceL : List Char := ("```").toList

def lbrace : Char := '\x7b'

def rbrace : Char := '\x7d'

/-- Python `hay.find(sub)` with the -1 encoding. -/
def pyFindI (sub hay : List Char) : Int :=
  match findFrom sub hay 0 with
  | some i => (i : Int)
  | none => -1

/-- Python `hay.find(sub, start)`; in the parser the start is always
non-negative, so the clamp of `Int.toNat` is never exercised. -/
def pyFindFromI (sub hay : List Char) (start : Int) : Int :=
  match findFrom sub (hay.drop start.toNat) 0 with
  | some j => start + j
  | none => -1

/-- Python `hay.rfind(c)` with the -1 encoding. -/
def pyRFindI (c : Char) (hay : List Char) : Int :=
  match lastIdxOf c hay with
  | some i => (i : Int)
  | none => -1

/-- Effective index of a Python slice bound: negative values count from
the end, everything clamps into `[0, n]`. -/
def clampIdx (n : Nat) (i : Int) : Nat :=
  if i < 0 then ((n : Int) + i).toNat else min i.toNat n

/-- Python `s[a:b]`. -/
def pySlice (s : List Char) (a b : Int) : List Char :=
  (s.take (clampIdx s.length b)).drop (clampIdx s.length a)

/-- The extraction of document_validator.py lines 582-591: the fenced
block if a ```json fence occurs, else the first-brace-to-last-brace
span if both braces occur, else the whole response. -/
def parseExtract (content : List Char) : List Char :=
  if occursIn fenceJsonL content then
    let s := pyFindI fenceJsonL content + 7
    let e := pyFindFromI fenceL content s
    pyStrip (pySlice content s e)
  else if occursIn [lbrace] content && occursIn [rbrace] content then
    pySlice content (pyFindI [lbrace] content) (pyRFindI rbrace content + 1)
  else content

/-- A JSON value as far as the update logic observes it. -/
inductive JVal where
  | jnull
  | jbool (b : Bool)
  | jstr (s : List Char)
  | jnum (n : Int)
deriving DecidableEq

/-- The `ValidationResult` fields `_parse_validation_response` updates
(document_validator.py lines 33-46): six verdicts initialised to null
and six reason strings initialised empty; being dynamically typed they
hold whatever JSON value the response supplies. -/
structure VResult where
  formsConsistent : JVal := .jnull
  blankFormMatches : JVal := .jnull
  sampleFormMatches : JVal := .jnull
  blankFormEmpty : JVal := .jnull
  sampleFormFilled : JVal := .jnull
  sampleInfoMasked : JVal := .jnull
  formsConsistentReason : JVal := .jstr []
  blankFormMatchesReason : JVal := .jstr []
  sampleFormMatchesReason : JVal := .jstr []
  blankFormEmptyReason : JVal := .jstr []
  sampleFormFilledReason : JVal := .jstr []
  sampleInfoMaskedReason : JVal := .jstr []
deriving DecidableEq

/-- Key lookup in the parsed JSON object (`k in data`, `data[k]`). -/
def getKey (data : List (List Char × JVal)) (k : List Char) : Option JVal :=
  match data.find? (fun kv => kv.1 == k) with
  | some kv => some kv.2
  | none => none

/-- Python `data.get(k, d)`. -/
def getKeyD (data : List (List Char × JVal)) (k : List Char) (d : JVal) : JVal :=
  match getKey data k with
  | some v => v
  | none => d

def keyFC : List Char := ("forms_consistent").toList
def keyFCr : List Char := ("forms_consistent_reason").toList
def keyBFM : List Char := ("blank_form_matches").toList
def keyBFMr : List Char := ("blank_form_matches_reason").toList
def keySFM : List Char := ("sample_form_matches").toList
def keySFMr : List Char := ("sample_form_matches_reason").toList
def keyBFE : List Char := ("blank_form_empty").toList
def keyBFEr : List Char := ("blank_form_empty_reason").toList
def keySFF : List Char := ("sample_form_filled").toList
def keySFFr : List Char := ("sample_form_filled_reason").toList
def keySIM : List Char := ("sample_info_masked").toList
def keySIMr : List Char := ("sample_info_masked_reason").toList

/-- Update step for `forms_consistent`, document_validator.py
lines 597-599. -/
def updFC (data : List (List Char × JVal)) (r : VResult) : VResult :=
  match getKey data keyFC with
  | some v => { r with formsConsistent := v, formsConsistentReason := getKeyD data keyFCr (.jstr []) }
  | none => r

/-- Update step for `blank_form_matches`, lines 601-603. -/
def updBFM (data : List (List Char × JVal)) (r : VResult) : VResult :=
  match getKey data keyBFM with
  | some v => { r with blankFormMatches := v, blankFormMatchesReason := getKeyD data keyBFMr (.jstr []) }
  | none => r

/-- Update step for `sample_form_matches`, lines 605-607. -/
def updSFM (data : List (List Char × JVal)) (r : VResult) : VResult :=
  match getKey data keySFM with
  | some v => { r with sampleFormMatches := v, sampleFormMatchesReason := getKeyD data keySFMr (.jstr []) }
  | none => r

/-- Update step for `blank_form_empty`, lines 609-611. -/
def updBFE (data : List (List Char × JVal)) (r : VResult) : VResult :=
  match getKey data keyBFE with
  | some v => { r with blankFormEmpty := v, blankFormEmptyReason := getKeyD data keyBFEr (.jstr []) }
  | none => r

/-- Update step for `sample_form_filled`, lines 613-615. -/
def updSFF (data : List (List Char × JVal)) (r : VResult) : VResult :=
  match getKey data keySFF with
  | some v => { r with sampleFormFilled := v, sampleFormFilledReason := getKeyD data keySFFr (.jstr []) }
  | none => r

/-- Update step for `sample_info_masked`, lines 617-619. -/
def updSIM (data : List (List Char × JVal)) (r : VResult) : VResult :=
  match getKey data keySIM with
  | some v => { r with sampleInfoMasked := v, sampleInfoMaskedReason := getKeyD data keySIMr (.jstr []) }
  | none => r

/-- The whole field-update sequence of lines 597-619. -/
def updateResult (r : VResult) (data : List (List Char × JVal)) : VResult :=
  updSIM data (updSFF data (updBFE data (updSFM data (updBFM data (updFC data r)))))

/-
Helper lemmas shared by the claim theorems.
-/

theorem find_first_of {α : Type _} (p : α → Bool) (l : List α) :
    ∀ (i : Nat) (h : i < l.length),
      p (l.get ⟨i, h⟩) = true →
      (∀ j (hj : j < i), p (l.get ⟨j, Nat.lt_trans hj h⟩) = false) →
      l.find? p = some (l.get ⟨i, h⟩) := by
  induction l with
  | nil => intro i h; exact absurd h (Nat.not_lt_zero i)
  | cons a t ih =>
    intro i h hp hb
    cases i with
    | zero =>
      simp only [List.get] at hp ⊢
      exact List.find?_cons_of_pos t hp
    | succ i =>
      have ha : p a = false := by
        have h0 := hb 0 (Nat.succ_pos i)
        simpa [List.get] using h0
      rw [List.find?_cons_of_neg t (by simp [ha])]
      exact ih i (Nat.lt_of_succ_lt_succ h) hp
        (fun j hj => hb (j + 1) (Nat.succ_lt_succ hj))

theorem isStartOf_length (sub : List Char) :
    ∀ (hay : List Char), isStartOf sub hay = true → sub.length ≤ hay.length := by
  induction sub with
  | nil => intro hay _; simp
  | cons a s ih =>
    intro hay h
    cases hay with
    | nil => simp [isStartOf] at h
    | cons b t =>
      simp only [isStartOf, Bool.and_eq_true] at h
      have := ih t h.2
      simp only [List.length_cons]
      omega

theorem findFrom_bound (sub : List Char) :
    ∀ (hay : List Char) (i j : Nat), findFrom sub hay i = some j →
      i ≤ j ∧ j - i + sub.length ≤ hay.length := by
  intro hay
  induction hay with
  | nil =>
    intro i j h
    unfold findFrom at h
    split at h
    · rename_i hemp
      cases h
      have : sub = [] := by
        cases sub with
        | nil => rfl
        | cons x xs => simp [List.isEmpty] at hemp
      simp [this]
    · cases h
  | cons c t ih =>
    intro i j h
    unfold findFrom at h
    split at h
    · rename_i hst
      cases h
      have := isStartOf_length sub (c :: t) hst
      omega
    · have := ih (i + 1) j h
      simp only [List.length_cons]
      omega

theorem findFrom_occurs (sub : List Char) :
    ∀ (hay : List Char) (i j : Nat), findFrom sub hay i = some j →
      occursIn sub hay = true := by
  intro hay
  induction hay with
  | nil =>
    intro i j h
    unfold findFrom at h
    split at h
    · rename_i hemp; simp [occursIn, hemp]
    · cases h
  | cons c t ih =>
    intro i j h
    unfold findFrom at h
    split at h
    · rename_i hst; simp [occursIn, hst]
    · have := ih (i + 1) j h
      simp [occursIn, this]

theorem lastIdxOf_lt (c : Char) :
    ∀ (hay : List Char) (b : Nat), lastIdxOf c hay = some b → b < hay.length := by
  intro hay
  induction hay with
  | nil => intro b h; cases h
  | cons a t ih =>
    intro b h
    simp only [lastIdxOf] at h
    cases ht : lastIdxOf c t with
    | some j =>
      simp only [ht] at h
      cases h
      have := ih j ht
      simp only [List.length_cons]
      omega
    | none =>
      simp only [ht] at h
      by_cases hac : (a == c) = true
      · rw [if_pos hac] at h
        cases h
        simp
      · rw [if_neg hac] at h
        cases h

theorem lastIdxOf_occurs (c : Char) :
    ∀ (hay : List Char) (b : Nat), lastIdxOf c hay = some b →
      occursIn [c] hay = true := by
  intro hay
  induction hay with
  | nil => intro b h; cases h
  | cons a t ih =>
    intro b h
    simp only [lastIdxOf] at h
    cases ht : lastIdxOf c t with
    | some j =>
      simp only [ht] at h
      simp [occursIn, ih j ht]
    | none =>
      simp only [ht] at h
      by_cases hac : (a == c) = true
      · have hca : a = c := beq_iff_eq.mp hac
        subst hca
        simp [occursIn, isStartOf]
      · rw [if_neg hac] at h
        cases h

theorem pySlice_nat (s : List Char) (a b : Nat)
    (ha : a ≤ s.length) (hb : b ≤ s.length) :
    pySlice s (a : Int) (b : Int) = (s.take b).drop a := by
  unfold pySlice clampIdx
  have h1 : ¬((b : Int) < 0) := by omega
  have h2 : ¬((a : Int) < 0) := by omega
  rw [if_neg h1, if_neg h2]
  have h3 : (b : Int).toNat = b := by omega
  have h4 : (a : Int).toNat = a := by omega
  rw [h3, h4, Nat.min_eq_left hb, Nat.min_eq_left ha]

theorem drop_take_swap (l : List Char) (a q : Nat) :
    (l.take (a + q)).drop a = (l.drop a).take q := by
  rw [List.drop_take]
  congr 1
  omega

/-
Claim C1.
-/

/-- Acceptance predicate exactly as claim C1 words it, for comparison
with the source's `strictSignal`: a non-null href, a non-null onclick,
or a class attribute containing a recognized download marker with a
case-insensitive containment test. -/
def claimSignal (a : Anchor) : Bool :=
  a.href.isSome || a.onclick.isSome ||
    (match a.className with
     | none => false
     | some c => occursIn kbbgMarker (lowerL c) || occursIn downloadMarker (lowerL c))

def eC1 : List Char := ("下载").toList

def aC1 : Anchor := { text := eC1, href := some [], className := some (("KBBG").toList) }

def rC1 : TableRow := { text := ("材料行").toList, anchors := [aC1] }

/-- C1 counterexample: this anchor has a non-null (but empty) href and a
class attribute containing the kbbg marker up to case, so the claim's
acceptance test (`claimSignal`) accepts its row; the code's strict test
is Python-truthy on href/onclick and case-sensitive on kbbg, so the
strict pass rejects the row and only the fallback pass selects it,
refuting C1 as stated. -/
theorem c1_counterexample :
    claimSignal aC1 = true ∧ matchingAnchors rC1 eC1 = [aC1]
    ∧ strictRowOK rC1 eC1 = false ∧ selectRow [rC1] eC1 = some (rC1, true) := by
  decide

/-- C1 amended: a candidate row with matching anchors is accepted by the
strict pass exactly when its first matching anchor has a non-empty href,
a non-empty onclick, or a non-empty class attribute containing "kbbg"
case-sensitively or "download" case-insensitively; a row whose single
matching anchor carries a non-empty href is accepted and that anchor is
the one picked. -/
theorem c1_amended (r : TableRow) (e : List Char) :
    (∀ a rest, matchingAnchors r e = a :: rest →
      (strictRowOK r e = true ↔
        ((∃ s, a.href = some s ∧ s ≠ []) ∨ (∃ s, a.onclick = some s ∧ s ≠ []) ∨
          (∃ c, a.className = some c ∧ c ≠ [] ∧
            (occursIn kbbgMarker c = true ∨ occursIn downloadMarker (lowerL c) = true)))))
    ∧ (∀ a, matchingAnchors r e = [a] → (∃ s, a.href = some s ∧ s ≠ []) →
        strictRowOK r e = true ∧ pickAnchor r e = PickResult.picked a) := by
  have key : ∀ a rest, matchingAnchors r e = a :: rest →
      (strictRowOK r e = true ↔
        ((∃ s, a.href = some s ∧ s ≠ []) ∨ (∃ s, a.onclick = some s ∧ s ≠ []) ∨
          (∃ c, a.className = some c ∧ c ≠ [] ∧
            (occursIn kbbgMarker c = true ∨ occursIn downloadMarker (lowerL c) = true)))) := by
    intro a rest hm
    unfold strictRowOK
    rw [hm]
    cases ha : a.href <;> cases ho : a.onclick <;> cases hc : a.className <;>
      simp [strictSignal, truthyStr, ha, ho, hc, List.isEmpty_iff, and_assoc, or_assoc]
  refine ⟨key, ?_⟩
  intro a hm hex
  refine ⟨(key a [] hm).mpr (Or.inl hex), ?_⟩
  simp [pickAnchor, hm]

def eW1 : List Char := ("空白表格").toList

def aW1 : Anchor := { text := eW1, href := some (("/files/a.pdf").toList) }

def rW1 : TableRow := { text := ("体检合格证明").toList, anchors := [aW1] }

/-- C1 witness: a row whose single matching anchor carries a non-empty
href is accepted by the strict pass and that anchor is picked. -/
theorem c1_witness :
    strictRowOK rW1 eW1 = true ∧ pickAnchor rW1 eW1 = PickResult.picked aW1 :=
  (c1_amended rW1 eW1).2 aW1 (by decide) ⟨("/files/a.pdf").toList, rfl, by decide⟩

/-
Claim C2.
-/

/-- C2: the strict pass scans candidate rows in document order and stops
at the first row passing the strict attribute test: if the row at index
i passes and no earlier row does, that row is selected with the
high-confidence flag, and resolution picks its anchor with no further
scoring of later rows. -/
theorem c2_strict_first_match (rows : List TableRow) (m e : List Char) (i : Nat)
    (h : i < (candidateRows rows m).length)
    (hp : strictRowOK ((candidateRows rows m).get ⟨i, h⟩) e = true)
    (hb : ∀ j (hj : j < i),
      strictRowOK ((candidateRows rows m).get ⟨j, Nat.lt_trans hj h⟩) e = false) :
    selectRow (candidateRows rows m) e = some ((candidateRows rows m).get ⟨i, h⟩, false)
    ∧ ∀ a, pickAnchor ((candidateRows rows m).get ⟨i, h⟩) e = PickResult.picked a →
        resolveLink rows m e = some (a, false) := by
  have hfind := find_first_of (fun r => strictRowOK r e) (candidateRows rows m) i h hp hb
  have hsel : selectRow (candidateRows rows m) e
      = some ((candidateRows rows m).get ⟨i, h⟩, false) := by
    unfold selectRow
    rw [hfind]
  refine ⟨hsel, ?_⟩
  intro a hpick
  simp only [List.get_eq_getElem] at hpick
  simp [resolveLink, hsel, hpick]

def mW2 : List Char := ("材料A").toList

def eW2 : List Char := ("下载").toList

def rW2a : TableRow := { text := ("材料A 说明").toList, anchors := [{ text := eW2 }] }

def rW2b : TableRow :=
  { text := ("材料A 附件").toList
    anchors := [{ text := eW2, href := some (("/f.doc").toList) }] }

def rowsW2 : List TableRow := [rW2a, rW2b]

/-- C2 witness: on a page with two candidate rows where only the second
passes the strict test, the strict pass selects the second. -/
theorem c2_witness :
    selectRow (candidateRows rowsW2 mW2) eW2
      = some ((candidateRows rowsW2 mW2).get ⟨1, by decide⟩, false) :=
  (c2_strict_first_match rowsW2 mW2 eW2 1 (by decide) (by decide) (by decide)).1

/-
Claim C3.
-/

/-- C3: when no candidate row passes the strict attribute test but some
candidate row has a matching anchor, the fallback pass selects the first
such row in document order regardless of attribute signals, and the
selection carries the lower-confidence (fallback) flag. -/
theorem c3_fallback_first_textual (rows : List TableRow) (m e : List Char) (i : Nat)
    (h : i < (candidateRows rows m).length)
    (hnone : ∀ r ∈ candidateRows rows m, strictRowOK r e = false)
    (hp : ((matchingAnchors ((candidateRows rows m).get ⟨i, h⟩) e).isEmpty) = false)
    (hb : ∀ j (hj : j < i),
      ((matchingAnchors ((candidateRows rows m).get ⟨j, Nat.lt_trans hj h⟩) e).isEmpty) = true) :
    selectRow (candidateRows rows m) e = some ((candidateRows rows m).get ⟨i, h⟩, true)
    ∧ ∀ a, pickAnchor ((candidateRows rows m).get ⟨i, h⟩) e = PickResult.picked a →
        resolveLink rows m e = some (a, true) := by
  have h1 : (candidateRows rows m).find? (fun r => strictRowOK r e) = none := by
    rw [List.find?_eq_none]
    intro x hx
    simp [hnone x hx]
  have h2 := find_first_of (fun r => !(matchingAnchors r e).isEmpty)
    (candidateRows rows m) i h (by simpa using hp) (fun j hj => by simpa using hb j hj)
  have hsel : selectRow (candidateRows rows m) e
      = some ((candidateRows rows m).get ⟨i, h⟩, true) := by
    unfold selectRow
    rw [h1, h2]
  refine ⟨hsel, ?_⟩
  intro a hpick
  simp only [List.get_eq_getElem] at hpick
  simp [resolveLink, hsel, hpick]

def mW3 : List Char := ("材料B").toList

def eW3 : List Char := ("样表").toList

def rW3a : TableRow := { text := ("材料B 表头").toList, anchors := [] }

def rW3b : TableRow := { text := ("材料B 数据").toList, anchors := [{ text := eW3 }] }

def rowsW3 : List TableRow := [rW3a, rW3b]

/-- C3 witness: with no strict acceptance anywhere, the fallback selects
the first candidate row with a matching anchor and flags it. -/
theorem c3_witness :
    selectRow (candidateRows rowsW3 mW3) eW3
      = some ((candidateRows rowsW3 mW3).get ⟨1, by decide⟩, true) :=
  (c3_fallback_first_textual rowsW3 mW3 eW3 1 (by decide) (by decide) (by decide)
    (by decide)).1

/-
Claim C4.
-/

def eC4 : List Char := ("空白表格").toList

def aC4a : Anchor := { text := eC4, className := some (("kbbg").toList) }

def aC4b : Anchor :=
  { text := eC4, href := some (("/x.pdf").toList), className := some (("kbbg red").toList) }

def rC4 : TableRow := { text := ("材料E").toList, anchors := [aC4a, aC4b] }

def mC4 : List Char := ("材料E").toList

def envC4 : PageEnv := { rows := [rC4] }

/-- C4 counterexample: a row with two matching anchors that BOTH carry
the kbbg class marker.  The claim says resolution prefers a marked
anchor, but the preferred `a.kbbg:text(...)` locator keeps two elements,
so the single-element operations at batch_runner.py lines 167/173 raise
a strict-mode violation: no anchor is resolved and the case fails
through the generic catch-all. -/
theorem c4_counterexample :
    1 < (matchingAnchors rC4 eC4).length
    ∧ (∃ a ∈ matchingAnchors rC4 eC4, hasClassTok a.className kbbgMarker = true)
    ∧ pickAnchor rC4 eC4 = PickResult.strictModeViolation
    ∧ resolveLink envC4.rows mC4 eC4 = none
    ∧ testSingle envC4 mC4 eC4 = Outcome.unexpectedError := by
  decide

/-- C4 amended: within the accepted row, a single matching anchor is
taken as is; with several matching anchors and none kbbg-marked the
first matching anchor in document order is taken; with exactly one
kbbg-marked matching anchor that marked anchor is taken; with two or
more kbbg-marked matching anchors the preferred locator stays
multi-element, the single-element operations that follow raise a
strict-mode violation, and the case fails with the generic
unexpected-error outcome instead of resolving an anchor. -/
theorem c4_anchor_preference (r : TableRow) (e : List Char) :
    (∀ a, matchingAnchors r e = [a] → pickAnchor r e = PickResult.picked a)
    ∧ (1 < (matchingAnchors r e).length →
        ((∀ a ∈ matchingAnchors r e, hasClassTok a.className kbbgMarker = false) →
          ∀ a rest, matchingAnchors r e = a :: rest →
            pickAnchor r e = PickResult.picked a)
        ∧ (∀ p, (matchingAnchors r e).filter
              (fun x => hasClassTok x.className kbbgMarker) = [p] →
            pickAnchor r e = PickResult.picked p ∧ p ∈ matchingAnchors r e ∧
              hasClassTok p.className kbbgMarker = true)
        ∧ (1 < ((matchingAnchors r e).filter
              (fun x => hasClassTok x.className kbbgMarker)).length →
            pickAnchor r e = PickResult.strictModeViolation))
    ∧ (∀ env m fb, env.navOk = true →
        selectRow (candidateRows env.rows m) e = some (r, fb) → r.visible = true →
        pickAnchor r e = PickResult.strictModeViolation →
        testSingle env m e = Outcome.unexpectedError) := by
  refine ⟨?_, ?_, ?_⟩
  · intro a hm
    simp [pickAnchor, hm]
  · intro hlen
    cases hm : matchingAnchors r e with
    | nil => rw [hm] at hlen; simp at hlen
    | cons a t =>
      cases t with
      | nil => rw [hm] at hlen; simp at hlen
      | cons b rest =>
        refine ⟨?_, ?_, ?_⟩
        · intro hall a0 rest0 heq
          injection heq with h1 h2
          subst h1
          have hf : (a :: b :: rest).filter
              (fun y => hasClassTok y.className kbbgMarker) = [] := by
            rw [List.filter_eq_nil_iff]
            intro y hy
            simp [hall y hy]
          unfold pickAnchor
          rw [hm]
          simp [hf]
        · intro p hfp
          have hpmem : p ∈ (a :: b :: rest).filter
              (fun y => hasClassTok y.className kbbgMarker) := by
            rw [hfp]
            exact List.mem_cons_self p []
          have hp := List.mem_filter.mp hpmem
          refine ⟨?_, hp.1, by simpa using hp.2⟩
          unfold pickAnchor
          rw [hm]
          simp [hfp]
        · intro hflen
          cases hf : (a :: b :: rest).filter
              (fun y => hasClassTok y.className kbbgMarker) with
          | nil => rw [hf] at hflen; simp at hflen
          | cons p t2 =>
            cases t2 with
            | nil => rw [hf] at hflen; simp at hflen
            | cons q rest2 =>
              unfold pickAnchor
              rw [hm]
              simp [hf]
  · intro env m fb hnav hsel hrv hpick
    simp [testSingle, hnav, hsel, hrv, hpick]

def eW4 : List Char := ("空白表格").toList

def aW4a : Anchor := { text := eW4 }

def aW4b : Anchor := { text := eW4, className := some (("btn kbbg").toList) }

def rW4 : TableRow := { text := ("材料C").toList, anchors := [aW4a, aW4b] }

/-- C4 witness: a row with two matching anchors, exactly one of which
carries the kbbg class marker, resolves to that marked anchor. -/
theorem c4_witness :
    pickAnchor rW4 eW4 = PickResult.picked aW4b ∧ aW4b ∈ matchingAnchors rW4 eW4 ∧
      hasClassTok aW4b.className kbbgMarker = true :=
  ((c4_anchor_preference rW4 eW4).2.1 (by decide)).2.1 aW4b (by decide)

/-
Claim C10.
-/

/-- C10: the strict pass inspects only the first matching anchor of a
candidate row; when that anchor lacks all three signals the row is
rejected by the strict pass whatever the later matching anchors carry,
and a page consisting of that row alone resolves only through the
fallback. -/
theorem c10_first_anchor_only (r : TableRow) (e : List Char) (a : Anchor)
    (rest : List Anchor) (hm : matchingAnchors r e = a :: rest)
    (hs : strictSignal a = false) :
    strictRowOK r e = false ∧ selectRow [r] e = some (r, true) := by
  have h1 : strictRowOK r e = false := by
    unfold strictRowOK
    rw [hm]
    exact hs
  refine ⟨h1, ?_⟩
  unfold selectRow
  rw [List.find?_cons_of_neg _ (by simp [h1])]
  rw [List.find?_cons_of_pos _ (by simp [hm])]
  simp

def eW10 : List Char := ("申请表").toList

def aW10a : Anchor := { text := eW10 }

def aW10b : Anchor := { text := eW10, href := some (("/b.doc").toList) }

def rW10 : TableRow := { text := ("材料D").toList, anchors := [aW10a, aW10b] }

/-- C10 witness: a row whose first matching anchor has no signal is
rejected by the strict pass even though its second matching anchor
carries an href. -/
theorem c10_witness :
    strictRowOK rW10 eW10 = false ∧ selectRow [rW10] eW10 = some (rW10, true) :=
  c10_first_anchor_only rW10 eW10 aW10a [aW10b] (by decide) (by decide)

/-
Claim C5.
-/

def mC5 : List Char := ("体检证明").toList

def eC5 : List Char := ("空白表格").toList

def envC5a : PageEnv := { rows := [{ text := ("无关行").toList }] }

def envC5b : PageEnv := { rows := [{ text := ("体检证明 材料行").toList, anchors := [] }] }

/-- C5 counterexample: a page with zero candidate rows and a page whose
candidate row has no matching anchor both fail with the very same
outcome (the single message of batch_runner.py line 136), so the two
failure modes are not distinctly tagged as the claim states; the
distinct in-row message of line 153 is not what these paths produce. -/
theorem c5_counterexample :
    testSingle envC5a mC5 eC5 = Outcome.noValidRow
    ∧ testSingle envC5b mC5 eC5 = Outcome.noValidRow
    ∧ candidateRows envC5a.rows mC5 = []
    ∧ candidateRows envC5b.rows mC5 ≠ [] := by
  decide

/-- C5 amended: with navigation succeeded, a page with zero candidate
rows fails with the no-valid-row outcome, and a page whose candidate
rows all lack a matching anchor fails with that SAME no-valid-row
outcome: the code emits one combined failure message for both modes
rather than distinct RowNotFound/LinkNotFound tags. -/
theorem c5_amended (env : PageEnv) (m e : List Char) (hnav : env.navOk = true) :
    (candidateRows env.rows m = [] → testSingle env m e = Outcome.noValidRow)
    ∧ ((∀ r ∈ candidateRows env.rows m, matchingAnchors r e = []) →
        testSingle env m e = Outcome.noValidRow) := by
  constructor
  · intro hc
    simp [testSingle, hnav, selectRow, hc]
  · intro hall
    have h1 : (candidateRows env.rows m).find? (fun r => strictRowOK r e) = none := by
      rw [List.find?_eq_none]
      intro r hr
      have hz : strictRowOK r e = false := by
        unfold strictRowOK
        rw [hall r hr]
      simp [hz]
    have h2 : (candidateRows env.rows m).find?
        (fun r => !(matchingAnchors r e).isEmpty) = none := by
      rw [List.find?_eq_none]
      intro r hr
      simp [hall r hr]
    simp [testSingle, hnav, selectRow, h1, h2]

def mW5 : List Char := ("居住证").toList

def eW5 : List Char := ("示例样表").toList

def envW5 : PageEnv := { rows := [{ text := ("居住证 办理材料").toList, anchors := [] }] }

/-- C5 witness: a page whose candidate row carries no matching anchor
fails with the no-valid-row outcome. -/
theorem c5_witness : testSingle envW5 mW5 eW5 = Outcome.noValidRow :=
  (c5_amended envW5 mW5 eW5 rfl).2 (by decide)

/-
Claim C6.
-/

def mC6 : List Char := ("体检").toList

def eC6 : List Char := ("空白表格").toList

def aC6 : Anchor := { text := eC6, href := some (("/a.pdf").toList), enabled := false }

def envC6 : PageEnv :=
  { rows := [{ text := ("体检 行").toList, anchors := [aC6] }]
    suggestedFilename := ("a.pdf").toList }

def aC6v : Anchor := { text := eC6, href := some (("/a.pdf").toList), visible := false }

def envC6v : PageEnv :=
  { rows := [{ text := ("体检 行").toList, anchors := [aC6v] }]
    suggestedFilename := ("a.pdf").toList }

/-- C6 counterexample: the resolved anchor of `envC6` is disabled, yet
the test case succeeds, so the enabled state is never verified; and when
the resolved anchor is not visible (`envC6v`) the case fails through the
generic per-case catch-all outcome of line 242, not through a distinctly
tagged interactability reason, refuting C6 as stated. -/
theorem c6_counterexample :
    resolveLink envC6.rows mC6 eC6 = some (aC6, false)
    ∧ aC6.enabled = false
    ∧ testSingle envC6 mC6 eC6 = Outcome.success (("pdf").toList)
    ∧ testSingle envC6v mC6 eC6 = Outcome.unexpectedError := by
  decide

/-- C6 amended: after row and anchor resolution, the code verifies only
that the anchor is visible (a 5-second bounded wait at line 167); if the
anchor is not visible the raised assertion is caught by the per-case
catch-all and reported as the generic unexpected-error outcome, and if
it is visible the case proceeds to the download regardless of the
anchor's enabled state. -/
theorem c6_amended (env : PageEnv) (m e : List Char) (r : TableRow) (fb : Bool)
    (a : Anchor) (hnav : env.navOk = true)
    (hsel : selectRow (candidateRows env.rows m) e = some (r, fb))
    (hrv : r.visible = true) (hpick : pickAnchor r e = PickResult.picked a) :
    (a.visible = false → testSingle env m e = Outcome.unexpectedError)
    ∧ (a.visible = true →
        testSingle env m e =
          if env.downloadOk then Outcome.success (fileTypeOf env.suggestedFilename)
          else Outcome.downloadTimeout) := by
  constructor <;> intro hv <;> simp [testSingle, hnav, hsel, hrv, hpick, hv]

def mW6 : List Char := ("户口本").toList

def eW6 : List Char := ("申请表").toList

def aW6 : Anchor := { text := eW6, href := some (("/c.doc").toList), visible := false }

def rW6 : TableRow := { text := ("户口本 材料").toList, anchors := [aW6] }

def envW6 : PageEnv := { rows := [rW6] }

/-- C6 witness: a resolved but invisible anchor makes the case fail with
the generic unexpected-error outcome. -/
theorem c6_witness : testSingle envW6 mW6 eW6 = Outcome.unexpectedError :=
  (c6_amended envW6 mW6 eW6 rW6 false aW6 rfl (by decide) rfl (by decide)).1 rfl

/-
Claim C7.
-/

/-- The driver loop unrolled: every case contributes exactly its record
and its success increment; shared by the C7 and C8 theorems. -/
theorem runBatchAux_spec (tcs : List BatchCase) :
    ∀ n : Nat, runBatchAux tcs n =
      (tcs.map recordOf,
        n + (tcs.filter
          (fun tc => isSuccess (testSingle tc.env tc.materialName tc.elementName))).length) := by
  induction tcs with
  | nil => intro n; simp [runBatchAux]
  | cons tc rest ih =>
    intro n
    simp only [runBatchAux, ih]
    cases hs : isSuccess (testSingle tc.env tc.materialName tc.elementName) <;>
      simp [recordOf, List.filter_cons, hs] <;> omega

/-- C7: the per-test-case operation is total — every failure path yields
an outcome value rather than an exception — and the batch driver records
exactly one result per input case in order, never stopping early: the
record list is the per-case function mapped over the cases, its length
matches the case count, and the success counter counts the successful
cases. -/
theorem c7_batch_records_all (tcs : List BatchCase) :
    runBatch tcs = tcs.map recordOf
    ∧ (runBatch tcs).length = tcs.length
    ∧ successCount tcs =
        (tcs.filter
          (fun tc => isSuccess (testSingle tc.env tc.materialName tc.elementName))).length := by
  have h := runBatchAux_spec tcs 0
  refine ⟨?_, ?_, ?_⟩ <;> simp [runBatch, successCount, h]

/-
Claim C8.
-/

def inpC8 : BatchInput := { fileExists := true, dataset := none }

def dsC8 : Dataset :=
  { columns := [("url").toList, ("材料名称").toList, ("元素名称").toList]
    cases := [] }

def inpC8b : BatchInput := { fileExists := true, dataset := some dsC8 }

/-- C8 counterexample: two fatal conditions beyond the claim's pair.  An
input file that exists but whose read fails aborts before browser work;
and a valid workbook with all required columns but zero data rows
reaches the unguarded success-rate division at batch_runner.py line 346,
which raises ZeroDivisionError after the browser was launched and before
any results are written. -/
theorem c8_counterexample :
    mainRun inpC8 = RunResult.abortedReadError
    ∧ inpC8.fileExists = true ∧ inpC8.dataset = none
    ∧ mainRun inpC8b = RunResult.crashedZeroDiv
    ∧ inpC8b.fileExists = true ∧ missingColumns dsC8 = []
    ∧ browserLaunched (mainRun inpC8b) = true := by
  decide

/-- C8 amended: the run fails to complete exactly when the input file is
missing, the read of the input file fails, a required column is missing,
or the dataset has zero rows; the first three abort before any browser
is launched while the zero-row crash (the ZeroDivisionError of line 346)
happens after the browser ran; otherwise every test case is processed
and recorded. -/
theorem c8_abort_conditions (inp : BatchInput) :
    (isAborted (mainRun inp) = true ↔
      inp.fileExists = false ∨ inp.dataset = none ∨
        (∃ ds, inp.dataset = some ds ∧ (missingColumns ds ≠ [] ∨ ds.cases = [])))
    ∧ (browserLaunched (mainRun inp) = false ↔
      inp.fileExists = false ∨ inp.dataset = none ∨
        (∃ ds, inp.dataset = some ds ∧ missingColumns ds ≠ []))
    ∧ (∀ ds, inp.dataset = some ds → inp.fileExists = true → missingColumns ds = [] →
        (ds.cases = [] → mainRun inp = RunResult.crashedZeroDiv)
        ∧ (ds.cases ≠ [] →
            mainRun inp = RunResult.finished (runBatch ds.cases)
              ∧ (runBatch ds.cases).length = ds.cases.length)) := by
  obtain ⟨fe, ods⟩ := inp
  refine ⟨?_, ?_, ?_⟩
  · cases fe with
    | false => simp [mainRun, isAborted]
    | true =>
      cases ods with
      | none => simp [mainRun, isAborted]
      | some ds =>
        by_cases hmc : missingColumns ds = []
        · cases hcs : ds.cases with
          | nil => simp [mainRun, isAborted, hmc, hcs]
          | cons c cs => simp [mainRun, isAborted, hmc, hcs]
        · have hne : (missingColumns ds).isEmpty = false := by
            cases hx : missingColumns ds with
            | nil => exact absurd hx hmc
            | cons y ys => simp
          simp [mainRun, isAborted, hne, hmc]
  · cases fe with
    | false => simp [mainRun, browserLaunched]
    | true =>
      cases ods with
      | none => simp [mainRun, browserLaunched]
      | some ds =>
        by_cases hmc : missingColumns ds = []
        · cases hcs : ds.cases with
          | nil => simp [mainRun, browserLaunched, hmc, hcs]
          | cons c cs => simp [mainRun, browserLaunched, hmc, hcs]
        · have hne : (missingColumns ds).isEmpty = false := by
            cases hx : missingColumns ds with
            | nil => exact absurd hx hmc
            | cons y ys => simp
          simp [mainRun, browserLaunched, hne, hmc]
  · intro ds hds hfe hmc
    simp only at hds hfe
    subst hds
    subst hfe
    have hrec := runBatchAux_spec ds.cases 0
    constructor
    · intro hcs
      simp [mainRun, hmc, hcs]
    · intro hcs
      cases hx : ds.cases with
      | nil => exact absurd hx hcs
      | cons c cs =>
        constructor
        · simp [mainRun, hmc, hx]
        · rw [hx] at hrec
          simp [runBatch, hrec]

def dsW8 : Dataset :=
  { columns := [("url").toList, ("材料名称").toList, ("元素名称").toList, ("备注").toList]
    cases := [{ env := { rows := [] }, materialName := ("甲").toList, elementName := ("乙").toList }] }

def inpW8 : BatchInput := { fileExists := true, dataset := some dsW8 }

/-- C8 witness: with the file present, the read succeeded, all required
columns present and at least one data row, the run finishes with one
record per case. -/
theorem c8_witness :
    mainRun inpW8 = RunResult.finished (runBatch dsW8.cases)
    ∧ (runBatch dsW8.cases).length = dsW8.cases.length :=
  ((c8_abort_conditions inpW8).2.2 dsW8 rfl rfl (by decide)).2 (by decide)

/-
Claim C9.
-/

/-- Field-update behaviour of document_validator.py lines 597-619: for
each of the six checks, its verdict and reason fields change exactly
when its verdict key is present in the parsed object.  Shared helper for
the C9 theorem. -/
theorem updateResult_fields (r : VResult) (data : List (List Char × JVal)) :
    ((getKey data keyFC = none →
        (updateResult r data).formsConsistent = r.formsConsistent
        ∧ (updateResult r data).formsConsistentReason = r.formsConsistentReason)
      ∧ (∀ v, getKey data keyFC = some v →
        (updateResult r data).formsConsistent = v
        ∧ (updateResult r data).formsConsistentReason = getKeyD data keyFCr (JVal.jstr [])))
    ∧ ((getKey data keyBFM = none →
        (updateResult r data).blankFormMatches = r.blankFormMatches
        ∧ (updateResult r data).blankFormMatchesReason = r.blankFormMatchesReason)
      ∧ (∀ v, getKey data keyBFM = some v →
        (updateResult r data).blankFormMatches = v
        ∧ (updateResult r data).blankFormMatchesReason = getKeyD data keyBFMr (JVal.jstr [])))
    ∧ ((getKey data keySFM = none →
        (updateResult r data).sampleFormMatches = r.sampleFormMatches
        ∧ (updateResult r data).sampleFormMatchesReason = r.sampleFormMatchesReason)
      ∧ (∀ v, getKey data keySFM = some v →
        (updateResult r data).sampleFormMatches = v
        ∧ (updateResult r data).sampleFormMatchesReason = getKeyD data keySFMr (JVal.jstr [])))
    ∧ ((getKey data keyBFE = none →
        (updateResult r data).blankFormEmpty = r.blankFormEmpty
        ∧ (updateResult r data).blankFormEmptyReason = r.blankFormEmptyReason)
      ∧ (∀ v, getKey data keyBFE = some v →
        (updateResult r data).blankFormEmpty = v
        ∧ (updateResult r data).blankFormEmptyReason = getKeyD data keyBFEr (JVal.jstr [])))
    ∧ ((getKey data keySFF = none →
        (updateResult r data).sampleFormFilled = r.sampleFormFilled
        ∧ (updateResult r data).sampleFormFilledReason = r.sampleFormFilledReason)
      ∧ (∀ v, getKey data keySFF = some v →
        (updateResult r data).sampleFormFilled = v
        ∧ (updateResult r data).sampleFormFilledReason = getKeyD data keySFFr (JVal.jstr [])))
    ∧ ((getKey data keySIM = none →
        (updateResult r data).sampleInfoMasked = r.sampleInfoMasked
        ∧ (updateResult r data).sampleInfoMaskedReason = r.sampleInfoMaskedReason)
      ∧ (∀ v, getKey data keySIM = some v →
        (updateResult r data).sampleInfoMasked = v
        ∧ (updateResult r data).sampleInfoMaskedReason = getKeyD data keySIMr (JVal.jstr []))) := by
  cases h1 : getKey data keyFC <;> cases h2 : getKey data keyBFM <;>
    cases h3 : getKey data keySFM <;> cases h4 : getKey data keyBFE <;>
      cases h5 : getKey data keySFF <;> cases h6 : getKey data keySIM <;>
        simp [updateResult, updFC, updBFM, updSFM, updBFE, updSFF, updSIM,
          h1, h2, h3, h4, h5, h6]

/-- C9: the validation-response parser extracts tolerantly — with a
```json fence present and closed it takes the stripped content between
the fence and the next ```; otherwise with an opening brace before a
closing brace it takes the substring from the first opening brace
through the last closing brace; otherwise it takes the whole response —
and the parsed object updates exactly the verdict/reason field pairs
whose verdict key it contains. -/
theorem c9_tolerant_parse (content : List Char) (r : VResult)
    (data : List (List Char × JVal)) :
    (∀ p q, findFrom fenceJsonL content 0 = some p →
      findFrom fenceL (content.drop (p + 7)) 0 = some q →
      parseExtract content = pyStrip ((content.drop (p + 7)).take q))
    ∧ (occursIn fenceJsonL content = false →
      ∀ a b, findFrom [lbrace] content 0 = some a → lastIdxOf rbrace content = some b →
        a ≤ b → parseExtract content = (content.take (b + 1)).drop a)
    ∧ (occursIn fenceJsonL content = false →
      (occursIn [lbrace] content = false ∨ occursIn [rbrace] content = false) →
      parseExtract content = content)
    ∧ ((getKey data keyFC = none →
        (updateResult r data).formsConsistent = r.formsConsistent
        ∧ (updateResult r data).formsConsistentReason = r.formsConsistentReason)
      ∧ (∀ v, getKey data keyFC = some v →
        (updateResult r data).formsConsistent = v
        ∧ (updateResult r data).formsConsistentReason = getKeyD data keyFCr (JVal.jstr [])))
    ∧ ((getKey data keyBFM = none →
        (updateResult r data).blankFormMatches = r.blankFormMatches
        ∧ (updateResult r data).blankFormMatchesReason = r.blankFormMatchesReason)
      ∧ (∀ v, getKey data keyBFM = some v →
        (updateResult r data).blankFormMatches = v
        ∧ (updateResult r data).blankFormMatchesReason = getKeyD data keyBFMr (JVal.jstr [])))
    ∧ ((getKey data keySFM = none →
        (updateResult r data).sampleFormMatches = r.sampleFormMatches
        ∧ (updateResult r data).sampleFormMatchesReason = r.sampleFormMatchesReason)
      ∧ (∀ v, getKey data keySFM = some v →
        (updateResult r data).sampleFormMatches = v
        ∧ (updateResult r data).sampleFormMatchesReason = getKeyD data keySFMr (JVal.jstr [])))
    ∧ ((getKey data keyBFE = none →
        (updateResult r data).blankFormEmpty = r.blankFormEmpty
        ∧ (updateResult r data).blankFormEmptyReason = r.blankFormEmptyReason)
      ∧ (∀ v, getKey data keyBFE = some v →
        (updateResult r data).blankFormEmpty = v
        ∧ (updateResult r data).blankFormEmptyReason = getKeyD data keyBFEr (JVal.jstr [])))
    ∧ ((getKey data keySFF = none →
        (updateResult r data).sampleFormFilled = r.sampleFormFilled
        ∧ (updateResult r data).sampleFormFilledReason = r.sampleFormFilledReason)
      ∧ (∀ v, getKey data keySFF = some v →
        (updateResult r data).sampleFormFilled = v
        ∧ (updateResult r data).sampleFormFilledReason = getKeyD data keySFFr (JVal.jstr [])))
    ∧ ((getKey data keySIM = none →
        (updateResult r data).sampleInfoMasked = r.sampleInfoMasked
        ∧ (updateResult r data).sampleInfoMaskedReason = r.sampleInfoMaskedReason)
      ∧ (∀ v, getKey data keySIM = some v →
        (updateResult r data).sampleInfoMasked = v
        ∧ (updateResult r data).sampleInfoMaskedReason = getKeyD data keySIMr (JVal.jstr []))) := by
  refine ⟨?_, ?_, ?_, ?_⟩
  · intro p q hp hq
    have hocc : occursIn fenceJsonL content = true := findFrom_occurs _ _ _ _ hp
    have hb1 := findFrom_bound fenceJsonL content 0 p hp
    have hb2 := findFrom_bound fenceL (content.drop (p + 7)) 0 q hq
    have e7 : fenceJsonL.length = 7 := rfl
    have e3 : fenceL.length = 3 := rfl
    rw [e7] at hb1
    rw [e3, List.length_drop] at hb2
    have hp7 : p + 7 ≤ content.length := by omega
    have hpq : p + 7 + q ≤ content.length := by omega
    have hfi : pyFindI fenceJsonL content = (p : Int) := by
      unfold pyFindI
      rw [hp]
    have ht : ((p : Int) + 7).toNat = p + 7 := by omega
    have hffi : pyFindFromI fenceL content ((p : Int) + 7) = (p : Int) + 7 + (q : Int) := by
      unfold pyFindFromI
      rw [ht, hq]
    have hgoal : parseExtract content
        = pyStrip (pySlice content ((pyFindI fenceJsonL content) + 7)
            (pyFindFromI fenceL content ((pyFindI fenceJsonL content) + 7))) := by
      unfold parseExtract
      rw [hocc]
      simp
    rw [hgoal, hfi, hffi]
    have hcast1 : ((p : Int) + 7) = (((p + 7 : Nat) : Int)) := by push_cast; ring
    have hcast2 : ((p : Int) + 7 + (q : Int)) = (((p + 7 + q : Nat) : Int)) := by
      push_cast
      ring
    rw [hcast2, hcast1, pySlice_nat content (p + 7) (p + 7 + q) hp7 hpq,
      drop_take_swap]
  · intro hocc a b ha hb _
    have hocca : occursIn [lbrace] content = true := findFrom_occurs _ _ _ _ ha
    have hoccb : occursIn [rbrace] content = true := lastIdxOf_occurs _ _ _ hb
    have hba := findFrom_bound [lbrace] content 0 a ha
    have e1 : ([lbrace] : List Char).length = 1 := rfl
    rw [e1] at hba
    have hbb := lastIdxOf_lt rbrace content b hb
    have hal : a ≤ content.length := by omega
    have hbl : b + 1 ≤ content.length := by omega
    have h1 : pyFindI [lbrace] content = (a : Int) := by
      unfold pyFindI
      rw [ha]
    have h2 : pyRFindI rbrace content = (b : Int) := by
      unfold pyRFindI
      rw [hb]
    have hgoal : parseExtract content
        = pySlice content (pyFindI [lbrace] content) (pyRFindI rbrace content + 1) := by
      unfold parseExtract
      rw [hocc, hocca, hoccb]
      simp
    rw [hgoal, h1, h2]
    have hcast : ((b : Int) + 1) = (((b + 1 : Nat) : Int)) := by push_cast; ring
    rw [hcast, pySlice_nat content a (b + 1) hal hbl]
  · intro h1 h2
    rcases h2 with h2 | h2 <;> simp [parseExtract, h1, h2]
  · exact updateResult_fields r data

def cW9 : List Char := ("ok ```json \x7b\"forms_consistent\": true\x7d ``` end").toList

def rW9 : VResult := {}

def dataW9 : List (List Char × JVal) := [(keyFC, JVal.jbool true)]

/-- C9 witness: a response with the JSON object inside a ```json fence
extracts exactly the braced object, and an object containing only the
forms-consistent key updates that verdict while leaving the other
verdicts untouched. -/
theorem c9_witness :
    parseExtract cW9 = ("\x7b\"forms_consistent\": true\x7d").toList
    ∧ (updateResult rW9 dataW9).formsConsistent = JVal.jbool true
    ∧ (updateResult rW9 dataW9).blankFormMatches = JVal.jnull := by
  obtain ⟨h1, _, _, hFC, hBFM, _, _, _, _⟩ := c9_tolerant_parse cW9 rW9 dataW9
  refine ⟨?_, ?_, ?_⟩
  · have hx := h1 3 28 (by decide) (by decide)
    rw [hx]
    decide
  · exact (hFC.2 (JVal.jbool true) (by decide)).1
  · have hy := (hBFM.1 (by decide)).1
    exact hy.trans rfl

end PBD
